import Mathlib

/-!
Shallow embedding of `src/server_manager.py` (class `ServerManager`) from the
LLM-Testing-app repository, together with theorems settling the spec claims
about it.

Modelling conventions:
* OS and network effects are oracles passed as function arguments:
  a socket probe oracle `Nat → ProbeOutcome` (what `connect_ex` to a given
  port does), HTTP oracles `Nat → HttpResult` / `Nat → Nat → HttpResult`
  (result of a GET on a port, resp. of the k-th poll iteration on a port),
  a `Option (List String)` response for the registration `POST /list_models`,
  and a `String → StopOutcome` behaviour for stopping a named process.
* Python exceptions become the `Err` sum type threaded through `Except`;
  the spec names `RuntimeError("Could not find a free port ...")` a
  `NoFreePortError` and the health-timeout `RuntimeError`s `StartupError`s.
* `subprocess.Popen` handles are opaque; the process table
  `self.processes : Dict[str, Popen]` is modelled by its ordered key list.
* `time.sleep` calls have no observable effect in the model; the 1-second
  poll cadence of `wait_for_service` is modelled by discrete poll indices
  `k = 0, 1, 2, ...` with the loop guard `k < timeout` (elapsed seconds at
  the start of iteration `k` is `k`, requests themselves taken as instant).
-/

/-- Outcome of the socket probe in `is_port_free` (lines 38-46):
`connect_ex` returned the integer `r`, or the socket operation raised. -/
inductive ProbeOutcome where
  | connectResult (r : Int)
  | error
deriving DecidableEq, Repr

/-- Outcome of one HTTP GET: a response with the given status code, or a
`requests.exceptions.RequestException`. -/
inductive HttpResult where
  | status (code : Nat)
  | exn
deriving DecidableEq, Repr

/-- Errors raised by `ServerManager` methods.  `noFreePort` is the
`RuntimeError` of `find_free_port` (the spec's `NoFreePortError`);
`controllerFailedToStart` / `apiFailedToStart` are the health-timeout
`RuntimeError`s (the spec's `StartupError`); `controllerNotRunning` is
`RuntimeError("Controller not running")`. -/
inductive Err where
  | noFreePort (start_port : Nat)
  | controllerFailedToStart
  | controllerNotRunning
  | apiFailedToStart
deriving DecidableEq, Repr

/-- `ServerManager.is_port_free` (lines 38-46): probe the port with a
1-second timeout; the port is free iff `connect_ex` completed and returned
nonzero; any exception is caught and reported as not free. -/
def is_port_free (probe : Nat → ProbeOutcome) (port : Nat) : Bool :=
  match probe port with
  | ProbeOutcome.connectResult r => decide (r ≠ 0)
  | ProbeOutcome.error => false

/-- The scan loop of `find_free_port` (line 33):
`for port in range(start_port, start_port + max_attempts)`, returning the
first port reported free; second argument is the remaining attempt count. -/
def find_free_port_go (probe : Nat → ProbeOutcome) : Nat → Nat → Option Nat
  | _, 0 => none
  | port, n + 1 =>
    if is_port_free probe port then some port
    else find_free_port_go probe (port + 1) n

/-- `ServerManager.find_free_port` (lines 31-36): scan
`[start_port, start_port + max_attempts)` and return the first free port;
raise `RuntimeError` (spec: `NoFreePortError`) when the budget is exhausted.
Python defaults are `start_port = 8000`, `max_attempts = 100`. -/
def find_free_port (probe : Nat → ProbeOutcome) (start_port max_attempts : Nat) :
    Except Err Nat :=
  match find_free_port_go probe start_port max_attempts with
  | some p => Except.ok p
  | none => Except.error (Err.noFreePort start_port)

/-- `ServerManager.is_service_running` (lines 215-221): GET the URL with a
2-second timeout; the service is running iff the response status is 200;
a `RequestException` yields `False`. -/
def is_service_running (r : HttpResult) : Bool :=
  match r with
  | HttpResult.status code => decide (code = 200)
  | HttpResult.exn => false

/-- The polling loop of `wait_for_service` (lines 205-212): `k` is the
current poll index (elapsed whole seconds), the second argument the
remaining iterations of the `while time.time() - start_time < timeout`
guard.  A 200 response returns `true` immediately; a `RequestException` is
swallowed, then the loop sleeps 1 second and re-checks the guard. -/
def wait_for_service_go (probe : Nat → HttpResult) : Nat → Nat → Bool
  | _, 0 => false
  | k, fuel + 1 =>
    match probe k with
    | HttpResult.status 200 => true
    | _ => wait_for_service_go probe (k + 1) fuel

/-- `ServerManager.wait_for_service` (lines 202-213): poll the URL once per
second (2-second per-request timeout) until a 200 response or until
`timeout` seconds elapse; return whether a 200 was seen.  `probe k` is the
outcome of the poll issued at elapsed second `k`. -/
def wait_for_service (probe : Nat → HttpResult) (timeout : Nat) : Bool :=
  wait_for_service_go probe 0 timeout

/-- The orchestrator state of `ServerManager.__init__` (lines 22-29): the
process table keyed by role name (Popen handles are opaque, so only the
ordered key list is kept) and the port pool `running_ports`. -/
structure ServerManager where
  processes : List String
  running_ports : List Nat
deriving DecidableEq, Repr

/-- A fresh `ServerManager()`: empty process table, empty port pool. -/
def ServerManager.init : ServerManager := ⟨[], []⟩

/-- The fixed base ports of `__init__`: controller 21001, openai_api 8000,
model_worker_base 21002. -/
def base_port_controller : Nat := 21001

def base_port_openai_api : Nat := 8000

def base_port_model_worker : Nat := 21002

/-- Python dict assignment `self.processes[name] = process` on the key
list: a fresh key is appended, an existing key keeps its position. -/
def dict_set (keys : List String) (name : String) : List String :=
  if keys.contains name then keys else keys ++ [name]

/-- How stopping one tracked process behaves (lines 245-255): it
terminates within the 5-second wait; or the wait times out and the process
is force-killed; or terminate/wait raises and the error is logged. -/
inductive StopOutcome where
  | graceful
  | timeoutThenKill
  | raisesLogged
deriving DecidableEq, Repr

/-- The externally visible action taken for one process by the stop loop. -/
inductive StopAction where
  | terminated (name : String)
  | forceKilled (name : String)
  | errorLogged (name : String)
deriving DecidableEq, Repr

/-- One iteration of the stop loop (lines 245-255): `terminate` then
`wait(timeout=5)`; on `TimeoutExpired`, `kill` then `wait()`; on any other
exception, log the error and continue. -/
def stop_one (outcome : StopOutcome) (name : String) : StopAction :=
  match outcome with
  | StopOutcome.graceful => StopAction.terminated name
  | StopOutcome.timeoutThenKill => StopAction.forceKilled name
  | StopOutcome.raisesLogged => StopAction.errorLogged name

/-- `ServerManager.stop_all_servers` (lines 241-258): best-effort stop of
every tracked process in table order (each failure absorbed per
`stop_one`), then `self.processes.clear()` and `self.running_ports.clear()`
unconditionally.  Returns the new state and the list of stop actions. -/
def stop_all_servers (outcomes : String → StopOutcome) (m : ServerManager) :
    ServerManager × List StopAction :=
  (⟨[], []⟩, m.processes.map (fun name => stop_one (outcomes name) name))

/-- The status dict of `get_status` (lines 262-266): initialised with
`controller = None`, `openai_api = None`, `workers = []`. -/
structure Status where
  controller : Option Nat
  openai_api : Option Nat
  workers : List Nat
deriving DecidableEq, Repr

/-- The loop of `get_status` (lines 268-273): for each tracked port in
order, re-probe `GET /list_models` on it; if it answers 200, record it as
the API server when `port < 10000`, else as the controller.  `check p` is
the outcome of the GET on port `p`. -/
def get_status_go (check : Nat → HttpResult) : List Nat → Status → Status
  | [], st => st
  | port :: rest, st =>
    get_status_go check rest
      (if is_service_running (check port) then
        (if port < 10000 then { st with openai_api := some port }
         else { st with controller := some port })
       else st)

/-- `ServerManager.get_status` (lines 260-275). -/
def get_status (check : Nat → HttpResult) (m : ServerManager) : Status :=
  get_status_go check m.running_ports ⟨none, none, []⟩

/-- Boolean substring containment on character lists, modelling the Python
string operator `model_name in model` of line 229. -/
def contains_sub (needle : List Char) : List Char → Bool
  | [] => needle.isEmpty
  | c :: rest => needle.isPrefixOf (c :: rest) || contains_sub needle rest

/-- `ServerManager.check_worker_registered` (lines 223-232): POST
`/list_models` to the controller; on a 200 response take its `models`
field and test whether any registered model contains `model_name` as a
substring; a `RequestException` or non-200 response yields `False`.
`resp` is `some models` for a 200 response with that list, `none` for a
request exception or a non-200 status. -/
def check_worker_registered (resp : Option (List String)) (model_name : String) :
    Bool :=
  match resp with
  | some models =>
    models.any (fun model => contains_sub model_name.toList model.toList)
  | none => false

/-- The controller-lookup loop of `start_model_worker` (lines 123-126) and
`start_openai_api_server` (lines 168-171): the first tracked port whose
`GET /list_models` answers 200. -/
def find_controller_port (check : Nat → HttpResult) : List Nat → Option Nat
  | [] => none
  | p :: rest =>
    if is_service_running (check p) then some p
    else find_controller_port check rest

/-- `ServerManager.start_controller` (lines 86-112): allocate the first
free port from base 21001, spawn the controller process (table key
`"controller"`, port appended to the pool), then poll
`GET /list_models` on it with a 30-second timeout; a timeout raises the
`RuntimeError` (spec: `StartupError`).  `poll port k` is the outcome of
poll `k` on the allocated port. -/
def start_controller (probe : Nat → ProbeOutcome) (poll : Nat → Nat → HttpResult)
    (m : ServerManager) : Except Err Nat × ServerManager :=
  match find_free_port probe base_port_controller 100 with
  | Except.error e => (Except.error e, m)
  | Except.ok port =>
    let m2 : ServerManager :=
      ⟨dict_set m.processes "controller", m.running_ports ++ [port]⟩
    if wait_for_service (poll port) 30 then (Except.ok port, m2)
    else (Except.error Err.controllerFailedToStart, m2)

/-- The default worker id of lines 116-117:
`worker_<count of keys starting with "worker">`; Python's
`k.startswith('worker')` is character-list prefix comparison. -/
def next_worker_id (m : ServerManager) : String :=
  "worker_" ++
    toString (m.processes.filter
      (fun k => "worker".toList.isPrefixOf k.toList)).length

/-- `ServerManager.start_model_worker` (lines 114-160) with the default
(derived) worker id: allocate the first free port from base 21002, look up
the first tracked port answering the controller health check and raise
`RuntimeError("Controller not running")` when none is found (Python
truthiness: a found port equal to 0 also fails the `if not controller_port`
test), otherwise spawn the worker, sleep the fixed 10-second grace period
and check registration; a non-registered worker only logs a warning.
Returns the allocated port and the registration flag (`false` means the
warning was logged); warnings never make the call fail. -/
def start_model_worker (probe : Nat → ProbeOutcome) (check : Nat → HttpResult)
    (models_resp : Option (List String)) (model_name : String)
    (m : ServerManager) : Except Err (Nat × Bool) × ServerManager :=
  let worker_id := next_worker_id m
  match find_free_port probe base_port_model_worker 100 with
  | Except.error e => (Except.error e, m)
  | Except.ok port =>
    match find_controller_port check m.running_ports with
    | none => (Except.error Err.controllerNotRunning, m)
    | some controller_port =>
      if controller_port = 0 then (Except.error Err.controllerNotRunning, m)
      else
        let m2 : ServerManager :=
          ⟨dict_set m.processes worker_id, m.running_ports ++ [port]⟩
        (Except.ok (port, check_worker_registered models_resp model_name), m2)

/-- `ServerManager.start_openai_api_server` (lines 162-200): allocate the
first free port from base 8000, look up a healthy controller port (raising
`RuntimeError("Controller not running")` when none, with the same Python
truthiness caveat), spawn the API server (table key `"openai_api"`), then
poll `GET /v1/models` with a 30-second timeout; a timeout raises the
`RuntimeError` (spec: `StartupError`). -/
def start_openai_api_server (probe : Nat → ProbeOutcome)
    (check : Nat → HttpResult) (poll : Nat → Nat → HttpResult)
    (m : ServerManager) : Except Err Nat × ServerManager :=
  match find_free_port probe base_port_openai_api 100 with
  | Except.error e => (Except.error e, m)
  | Except.ok port =>
    match find_controller_port check m.running_ports with
    | none => (Except.error Err.controllerNotRunning, m)
    | some controller_port =>
      if controller_port = 0 then (Except.error Err.controllerNotRunning, m)
      else
        let m2 : ServerManager :=
          ⟨dict_set m.processes "openai_api", m.running_ports ++ [port]⟩
        if wait_for_service (poll port) 30 then (Except.ok port, m2)
        else (Except.error Err.apiFailedToStart, m2)

/-- `ServerManager.cleanup_existing_servers` (lines 63-84): a best-effort
sweep killing stray FastChat processes and freeing well-known ports.  It
acts only on the OS process table, never on the orchestrator's tracked
state, so on the `ServerManager` record it is the identity. -/
def cleanup_existing_servers (m : ServerManager) : ServerManager := m

/-- The environment of one `start_full_stack` run: the oracles consumed by
each phase, in program order (controller port scan and health poll; worker
port scan, controller lookup and registration response; API-server port
scan, controller lookup and health poll; stop behaviours for teardown). -/
structure Env where
  ctrlProbe : Nat → ProbeOutcome
  ctrlPoll : Nat → Nat → HttpResult
  wkrProbe : Nat → ProbeOutcome
  wkrCheck : Nat → HttpResult
  wkrModels : Option (List String)
  apiProbe : Nat → ProbeOutcome
  apiCheck : Nat → HttpResult
  apiPoll : Nat → Nat → HttpResult
  stopOutcomes : String → StopOutcome

/-- The role-to-port map returned by a successful `start_full_stack`
(lines 292-296). -/
structure StackPorts where
  controller : Nat
  worker : Nat
  api : Nat
deriving DecidableEq, Repr

/-- `ServerManager.start_full_stack` (lines 277-301): cleanup, then
controller, worker and API server in dependency order; any exception from
those steps triggers `stop_all_servers` before being re-raised. -/
def start_full_stack (env : Env) (model_name : String) (m : ServerManager) :
    Except Err StackPorts × ServerManager :=
  let m0 := cleanup_existing_servers m
  match start_controller env.ctrlProbe env.ctrlPoll m0 with
  | (Except.error e, m1) =>
    (Except.error e, (stop_all_servers env.stopOutcomes m1).1)
  | (Except.ok controller_port, m1) =>
    match start_model_worker env.wkrProbe env.wkrCheck env.wkrModels
        model_name m1 with
    | (Except.error e, m2) =>
      (Except.error e, (stop_all_servers env.stopOutcomes m2).1)
    | (Except.ok (worker_port, _registered), m2) =>
      match start_openai_api_server env.apiProbe env.apiCheck env.apiPoll m2 with
      | (Except.error e, m3) =>
        (Except.error e, (stop_all_servers env.stopOutcomes m3).1)
      | (Except.ok api_port, m3) =>
        (Except.ok ⟨controller_port, worker_port, api_port⟩, m3)

theorem find_free_port_go_some (probe : Nat → ProbeOutcome) :
    ∀ (n s p : Nat), find_free_port_go probe s n = some p →
      s ≤ p ∧ p < s + n ∧ is_port_free probe p = true ∧
      ∀ q, s ≤ q → q < p → is_port_free probe q = false := by
  intro n
  induction n with
  | zero =>
    intro s p h
    simp [find_free_port_go] at h
  | succ n ih =>
    intro s p h
    cases hf : is_port_free probe s with
    | true =>
      simp [find_free_port_go, hf] at h
      subst h
      exact ⟨Nat.le_refl _, by omega, hf, fun q hq1 hq2 => by omega⟩
    | false =>
      simp [find_free_port_go, hf] at h
      obtain ⟨h1, h2, h3, h4⟩ := ih (s + 1) p h
      refine ⟨by omega, by omega, h3, ?_⟩
      intro q hq1 hq2
      rcases Nat.eq_or_lt_of_le hq1 with heq | hlt
      · rw [← heq]; exact hf
      · exact h4 q hlt hq2

theorem find_free_port_go_none (probe : Nat → ProbeOutcome) :
    ∀ (n s : Nat), find_free_port_go probe s n = none ↔
      ∀ q, s ≤ q → q < s + n → is_port_free probe q = false := by
  intro n
  induction n with
  | zero =>
    intro s
    simp [find_free_port_go]
    intro q hq1 hq2
    omega
  | succ n ih =>
    intro s
    cases hf : is_port_free probe s with
    | true =>
      simp [find_free_port_go, hf]
      exact ⟨s, Nat.le_refl _, by omega, hf⟩
    | false =>
      simp only [find_free_port_go, hf, if_neg Bool.false_ne_true]
      rw [ih (s + 1)]
      constructor
      · intro h q hq1 hq2
        rcases Nat.eq_or_lt_of_le hq1 with heq | hlt
        · rw [← heq]; exact hf
        · exact h q hlt (by omega)
      · intro h q hq1 hq2
        exact h q (by omega) (by omega)

theorem find_free_port_ok_bounds (probe : Nat → ProbeOutcome) (s a p : Nat)
    (h : find_free_port probe s a = Except.ok p) :
    s ≤ p ∧ p < s + a ∧ is_port_free probe p = true := by
  unfold find_free_port at h
  cases hg : find_free_port_go probe s a with
  | none => rw [hg] at h; exact absurd h (by simp)
  | some q =>
    rw [hg] at h
    simp at h
    subst h
    obtain ⟨h1, h2, h3, _⟩ := find_free_port_go_some probe a s q hg
    exact ⟨h1, h2, h3⟩

/-- C1: `find_free_port(start_port, max_attempts)` scans candidate ports
`start_port, start_port+1, ...` and returns the first port `p` in
`[start_port, start_port + max_attempts)` whose probe reports it free
(the TCP connect attempt completed with a nonzero `connect_ex` result, so
no live listener occupies `p`: in particular the probe did not return 0),
with every earlier candidate in the range not free; and it fails with the
`NoFreePortError` exactly when every port in the range is occupied. -/
theorem find_free_port_spec (probe : Nat → ProbeOutcome) (s a : Nat) :
    (∀ p, find_free_port probe s a = Except.ok p →
      s ≤ p ∧ p < s + a ∧ is_port_free probe p = true ∧
      probe p ≠ ProbeOutcome.connectResult 0 ∧
      ∀ q, s ≤ q → q < p → is_port_free probe q = false) ∧
    (find_free_port probe s a = Except.error (Err.noFreePort s) ↔
      ∀ q, s ≤ q → q < s + a → is_port_free probe q = false) := by
  constructor
  · intro p h
    unfold find_free_port at h
    cases hg : find_free_port_go probe s a with
    | none => rw [hg] at h; exact absurd h (by simp)
    | some p' =>
      rw [hg] at h
      simp at h
      subst h
      obtain ⟨h1, h2, h3, h4⟩ := find_free_port_go_some probe a s p' hg
      refine ⟨h1, h2, h3, ?_, h4⟩
      intro hc
      unfold is_port_free at h3
      rw [hc] at h3
      simp at h3
  · unfold find_free_port
    cases hg : find_free_port_go probe s a with
    | none =>
      simp only [hg]
      rw [← find_free_port_go_none probe a s]
      simp [hg]
    | some p' =>
      simp only [hg]
      rw [← find_free_port_go_none probe a s]
      simp [hg]

/-- Witness for C1: with a probe where port 8000 has a live listener
(`connect_ex` returns 0) and port 8001 refuses, the scan from 8000 with
budget 100 returns 8001, and the error case is characterised. -/
theorem find_free_port_spec_witness :
    8000 ≤ 8001 ∧ 8001 < 8000 + 100 ∧
    is_port_free (fun p => if p = 8000 then ProbeOutcome.connectResult 0
      else ProbeOutcome.connectResult 111) 8001 = true ∧
    (fun p => if p = 8000 then ProbeOutcome.connectResult 0
      else ProbeOutcome.connectResult 111) 8001 ≠ ProbeOutcome.connectResult 0 ∧
    ∀ q, 8000 ≤ q → q < 8001 →
      is_port_free (fun p => if p = 8000 then ProbeOutcome.connectResult 0
        else ProbeOutcome.connectResult 111) q = false :=
  (find_free_port_spec
    (fun p => if p = 8000 then ProbeOutcome.connectResult 0
      else ProbeOutcome.connectResult 111) 8000 100).1 8001 (by rfl)

/-- C10: `is_port_free` is total and returns `false` whenever the socket
probe raises (an erroring probe conservatively classifies the port as
occupied); consequently `find_free_port` only ever returns a port whose
TCP connect attempt completed with a nonzero (refused) result, never one
whose probe errored. -/
theorem is_port_free_error_conservative :
    (∀ (probe : Nat → ProbeOutcome) (port : Nat),
      probe port = ProbeOutcome.error → is_port_free probe port = false) ∧
    (∀ (probe : Nat → ProbeOutcome) (s a p : Nat),
      find_free_port probe s a = Except.ok p →
      ∃ r : Int, r ≠ 0 ∧ probe p = ProbeOutcome.connectResult r) := by
  constructor
  · intro probe port h
    unfold is_port_free
    rw [h]
  · intro probe s a p h
    unfold find_free_port at h
    cases hg : find_free_port_go probe s a with
    | none => rw [hg] at h; exact absurd h (by simp)
    | some p' =>
      rw [hg] at h
      simp at h
      subst h
      obtain ⟨_, _, h3, _⟩ := find_free_port_go_some probe a s p' hg
      unfold is_port_free at h3
      cases hc : probe p' with
      | connectResult r =>
        refine ⟨r, ?_, rfl⟩
        rw [hc] at h3
        simpa using h3
      | error => rw [hc] at h3; simp at h3

/-- Witness for C10: an always-erroring probe classifies port 8000 as
occupied, and a scan over a refusing probe returns a port with a nonzero
connect result. -/
theorem is_port_free_error_conservative_witness :
    is_port_free (fun _ => ProbeOutcome.error) 8000 = false ∧
    ∃ r : Int, r ≠ 0 ∧
      (fun _ => ProbeOutcome.connectResult 111) 21001 =
        ProbeOutcome.connectResult r :=
  ⟨is_port_free_error_conservative.1 (fun _ => ProbeOutcome.error) 8000 rfl,
   is_port_free_error_conservative.2 (fun _ => ProbeOutcome.connectResult 111)
     21001 100 21001 (by rfl)⟩

theorem wait_for_service_go_true (probe : Nat → HttpResult) :
    ∀ (fuel k : Nat), wait_for_service_go probe k fuel = true ↔
      ∃ j, k ≤ j ∧ j < k + fuel ∧ probe j = HttpResult.status 200 := by
  intro fuel
  induction fuel with
  | zero =>
    intro k
    simp [wait_for_service_go]
    intro j hj1 hj2
    omega
  | succ fuel ih =>
    intro k
    cases hp : probe k with
    | status code =>
      by_cases h200 : code = 200
      · subst h200
        simp only [wait_for_service_go, hp]
        constructor
        · intro _
          exact ⟨k, Nat.le_refl _, by omega, hp⟩
        · intro _
          trivial
      · have hstep : wait_for_service_go probe k (fuel + 1) =
            wait_for_service_go probe (k + 1) fuel := by
          simp only [wait_for_service_go, hp]
          split
          · rename_i heq
            rw [HttpResult.status.injEq] at heq
            exact absurd heq h200
          · rfl
        rw [hstep, ih (k + 1)]
        constructor
        · intro ⟨j, hj1, hj2, hj3⟩
          exact ⟨j, by omega, by omega, hj3⟩
        · intro ⟨j, hj1, hj2, hj3⟩
          refine ⟨j, ?_, by omega, hj3⟩
          rcases Nat.eq_or_lt_of_le hj1 with heq | hlt
          · rw [← heq] at hj3; rw [hp] at hj3
            rw [HttpResult.status.injEq] at hj3
            exact absurd hj3 h200
          · exact hlt
    | exn =>
      have hstep : wait_for_service_go probe k (fuel + 1) =
          wait_for_service_go probe (k + 1) fuel := by
        simp [wait_for_service_go, hp]
      rw [hstep, ih (k + 1)]
      constructor
      · intro ⟨j, hj1, hj2, hj3⟩
        exact ⟨j, by omega, by omega, hj3⟩
      · intro ⟨j, hj1, hj2, hj3⟩
        refine ⟨j, ?_, by omega, hj3⟩
        rcases Nat.eq_or_lt_of_le hj1 with heq | hlt
        · rw [← heq] at hj3; rw [hp] at hj3; exact absurd hj3 (by simp)
        · exact hlt

/-- C7: `wait_for_service` polls once per second within the timeout and
returns `true` if and only if some poll within the timeout returned
status 200.  It is a total Boolean function: an individual probe failure
(`RequestException`, modelled by `HttpResult.exn`) is swallowed and simply
drives the next poll iteration, and non-200 statuses likewise. -/
theorem wait_for_service_spec (probe : Nat → HttpResult) (timeout : Nat) :
    wait_for_service probe timeout = true ↔
      ∃ k, k < timeout ∧ probe k = HttpResult.status 200 := by
  unfold wait_for_service
  rw [wait_for_service_go_true probe timeout 0]
  constructor
  · intro ⟨j, _, hj2, hj3⟩
    exact ⟨j, by omega, hj3⟩
  · intro ⟨j, hj1, hj3⟩
    exact ⟨j, by omega, by omega, hj3⟩

/-- C3: `stop_all_servers` always returns (it is a total function of the
state and of arbitrary per-process stop behaviours: graceful terminate,
forced kill after the 5-second wait times out, or an error that is
logged), it unconditionally clears the process table and the port pool
even when individual stops failed, and calling it when nothing was started
returns the state unchanged with no stop action taken. -/
theorem stop_all_servers_spec (outcomes : String → StopOutcome)
    (m : ServerManager) :
    (stop_all_servers outcomes m).1.processes = [] ∧
    (stop_all_servers outcomes m).1.running_ports = [] ∧
    (m.processes = [] → m.running_ports = [] →
      stop_all_servers outcomes m = (m, [])) := by
  refine ⟨rfl, rfl, ?_⟩
  intro h1 h2
  unfold stop_all_servers
  rw [h1]
  cases m with
  | mk processes running_ports =>
    simp at h1 h2
    rw [h1, h2]
    rfl

/-- Witness for C3: stopping with nothing started is a no-op. -/
theorem stop_all_servers_spec_witness :
    stop_all_servers (fun _ => StopOutcome.graceful) ServerManager.init =
      (ServerManager.init, []) :=
  (stop_all_servers_spec (fun _ => StopOutcome.graceful)
    ServerManager.init).2.2 rfl rfl

theorem get_status_go_workers (check : Nat → HttpResult) :
    ∀ (ports : List Nat) (st : Status),
      (get_status_go check ports st).workers = st.workers := by
  intro ports
  induction ports with
  | nil => intro st; rfl
  | cons port rest ih =>
    intro st
    unfold get_status_go
    rw [ih]
    by_cases hs : is_service_running (check port) = true
    · by_cases hp : port < 10000
      · simp [hs, hp]
      · simp [hs, hp]
    · simp [hs]

theorem get_status_go_api_sound (check : Nat → HttpResult) :
    ∀ (ports : List Nat) (st : Status) (p : Nat),
      (get_status_go check ports st).openai_api = some p →
      st.openai_api = some p ∨
        (p ∈ ports ∧ is_service_running (check p) = true ∧ p < 10000) := by
  intro ports
  induction ports with
  | nil => intro st p h; exact Or.inl h
  | cons port rest ih =>
    intro st p h
    unfold get_status_go at h
    by_cases hs : is_service_running (check port) = true
    · by_cases hp : port < 10000
      · rw [if_pos hs, if_pos hp] at h
        rcases ih _ p h with hbase | hrest
        · simp at hbase
          rcases hbase with hbase
          rw [← hbase]
          exact Or.inr ⟨List.mem_cons_self port rest, hs, hp⟩
        · exact Or.inr ⟨List.mem_cons_of_mem port hrest.1, hrest.2⟩
      · rw [if_pos hs, if_neg hp] at h
        rcases ih _ p h with hbase | hrest
        · simp at hbase
          exact Or.inl hbase
        · exact Or.inr ⟨List.mem_cons_of_mem port hrest.1, hrest.2⟩
    · rw [if_neg hs] at h
      rcases ih _ p h with hbase | hrest
      · exact Or.inl hbase
      · exact Or.inr ⟨List.mem_cons_of_mem port hrest.1, hrest.2⟩

theorem get_status_go_ctrl_sound (check : Nat → HttpResult) :
    ∀ (ports : List Nat) (st : Status) (p : Nat),
      (get_status_go check ports st).controller = some p →
      st.controller = some p ∨
        (p ∈ ports ∧ is_service_running (check p) = true ∧ 10000 ≤ p) := by
  intro ports
  induction ports with
  | nil => intro st p h; exact Or.inl h
  | cons port rest ih =>
    intro st p h
    unfold get_status_go at h
    by_cases hs : is_service_running (check port) = true
    · by_cases hp : port < 10000
      · rw [if_pos hs, if_pos hp] at h
        rcases ih _ p h with hbase | hrest
        · simp at hbase
          exact Or.inl hbase
        · exact Or.inr ⟨List.mem_cons_of_mem port hrest.1, hrest.2⟩
      · rw [if_pos hs, if_neg hp] at h
        rcases ih _ p h with hbase | hrest
        · simp at hbase
          rcases hbase with hbase
          rw [← hbase]
          exact Or.inr ⟨List.mem_cons_self port rest, hs, by omega⟩
        · exact Or.inr ⟨List.mem_cons_of_mem port hrest.1, hrest.2⟩
    · rw [if_neg hs] at h
      rcases ih _ p h with hbase | hrest
      · exact Or.inl hbase
      · exact Or.inr ⟨List.mem_cons_of_mem port hrest.1, hrest.2⟩

theorem get_status_go_api_persist (check : Nat → HttpResult) :
    ∀ (ports : List Nat) (st : Status), st.openai_api.isSome →
      ((get_status_go check ports st).openai_api).isSome := by
  intro ports
  induction ports with
  | nil => intro st h; exact h
  | cons port rest ih =>
    intro st h
    unfold get_status_go
    by_cases hs : is_service_running (check port) = true
    · by_cases hp : port < 10000
      · rw [if_pos hs, if_pos hp]
        exact ih _ rfl
      · rw [if_pos hs, if_neg hp]
        exact ih _ h
    · rw [if_neg hs]
      exact ih _ h

theorem get_status_go_ctrl_persist (check : Nat → HttpResult) :
    ∀ (ports : List Nat) (st : Status), st.controller.isSome →
      ((get_status_go check ports st).controller).isSome := by
  intro ports
  induction ports with
  | nil => intro st h; exact h
  | cons port rest ih =>
    intro st h
    unfold get_status_go
    by_cases hs : is_service_running (check port) = true
    · by_cases hp : port < 10000
      · rw [if_pos hs, if_pos hp]
        exact ih _ h
      · rw [if_pos hs, if_neg hp]
        exact ih _ rfl
    · rw [if_neg hs]
      exact ih _ h

theorem get_status_go_api_complete (check : Nat → HttpResult) :
    ∀ (ports : List Nat) (st : Status) (p : Nat), p ∈ ports →
      is_service_running (check p) = true → p < 10000 →
      ((get_status_go check ports st).openai_api).isSome := by
  intro ports
  induction ports with
  | nil =>
    intro st p hmem
    exact absurd hmem (List.not_mem_nil p)
  | cons port rest ih =>
    intro st p hmem hrun hlt
    rcases List.mem_cons.mp hmem with heq | hrest
    · subst heq
      unfold get_status_go
      rw [if_pos hrun, if_pos hlt]
      exact get_status_go_api_persist check rest _ rfl
    · unfold get_status_go
      by_cases hs : is_service_running (check port) = true
      · by_cases hp : port < 10000
        · rw [if_pos hs, if_pos hp]
          exact ih _ p hrest hrun hlt
        · rw [if_pos hs, if_neg hp]
          exact ih _ p hrest hrun hlt
      · rw [if_neg hs]
        exact ih _ p hrest hrun hlt

theorem get_status_go_ctrl_complete (check : Nat → HttpResult) :
    ∀ (ports : List Nat) (st : Status) (p : Nat), p ∈ ports →
      is_service_running (check p) = true → 10000 ≤ p →
      ((get_status_go check ports st).controller).isSome := by
  intro ports
  induction ports with
  | nil =>
    intro st p hmem
    exact absurd hmem (List.not_mem_nil p)
  | cons port rest ih =>
    intro st p hmem hrun hge
    rcases List.mem_cons.mp hmem with heq | hrest
    · subst heq
      unfold get_status_go
      rw [if_pos hrun, if_neg (by omega : ¬ p < 10000)]
      exact get_status_go_ctrl_persist check rest _ rfl
    · unfold get_status_go
      by_cases hs : is_service_running (check port) = true
      · by_cases hp : port < 10000
        · rw [if_pos hs, if_pos hp]
          exact ih _ p hrest hrun hge
        · rw [if_pos hs, if_neg hp]
          exact ih _ p hrest hrun hge
      · rw [if_neg hs]
        exact ih _ p hrest hrun hge

/-- C8: `get_status` re-probes the health endpoint of every tracked port
and classifies each healthy responder by a port-number threshold: the
`openai_api` (gateway) field only ever holds a tracked healthy port below
10000 and the `controller` field only ever holds a tracked healthy port at
or above 10000; moreover whenever some tracked port is healthy and below
(resp. at or above) the threshold, the corresponding field is populated. -/
theorem get_status_spec (check : Nat → HttpResult) (m : ServerManager) :
    (∀ p, (get_status check m).openai_api = some p →
      p ∈ m.running_ports ∧ is_service_running (check p) = true ∧ p < 10000) ∧
    (∀ p, (get_status check m).controller = some p →
      p ∈ m.running_ports ∧ is_service_running (check p) = true ∧ 10000 ≤ p) ∧
    (∀ p, p ∈ m.running_ports → is_service_running (check p) = true →
      p < 10000 → ((get_status check m).openai_api).isSome) ∧
    (∀ p, p ∈ m.running_ports → is_service_running (check p) = true →
      10000 ≤ p → ((get_status check m).controller).isSome) := by
  refine ⟨?_, ?_, ?_, ?_⟩
  · intro p h
    rcases get_status_go_api_sound check m.running_ports ⟨none, none, []⟩ p h with
      hbase | hok
    · exact absurd hbase (by simp)
    · exact hok
  · intro p h
    rcases get_status_go_ctrl_sound check m.running_ports ⟨none, none, []⟩ p h with
      hbase | hok
    · exact absurd hbase (by simp)
    · exact hok
  · intro p hmem hrun hlt
    exact get_status_go_api_complete check m.running_ports ⟨none, none, []⟩ p hmem hrun hlt
  · intro p hmem hrun hge
    exact get_status_go_ctrl_complete check m.running_ports ⟨none, none, []⟩ p hmem hrun hge

/-- Witness for C8: with both tracked ports healthy, port 8000 (below the
threshold) is reported as the API server and port 21001 (above it) as the
controller. -/
theorem get_status_spec_witness :
    (8000 ∈ [21001, 8000] ∧
      is_service_running ((fun _ => HttpResult.status 200) 8000) = true ∧
      8000 < 10000) ∧
    ((get_status (fun _ => HttpResult.status 200)
      ⟨["controller", "openai_api"], [21001, 8000]⟩).openai_api).isSome ∧
    ((get_status (fun _ => HttpResult.status 200)
      ⟨["controller", "openai_api"], [21001, 8000]⟩).controller).isSome :=
  ⟨⟨by decide, rfl, by decide⟩,
   (get_status_spec (fun _ => HttpResult.status 200)
      ⟨["controller", "openai_api"], [21001, 8000]⟩).2.2.1 8000 (by decide) rfl
      (by decide),
   (get_status_spec (fun _ => HttpResult.status 200)
      ⟨["controller", "openai_api"], [21001, 8000]⟩).2.2.2 21001 (by decide) rfl
      (by decide)⟩

/-- C9: the `workers` entry of the status dict returned by `get_status` is
always the empty list, for every orchestrator state and every outcome of
the health probes: worker processes are never reported. -/
theorem get_status_workers_empty (check : Nat → HttpResult) (m : ServerManager) :
    (get_status check m).workers = [] := by
  unfold get_status
  rw [get_status_go_workers check m.running_ports ⟨none, none, []⟩]

theorem find_controller_port_some (check : Nat → HttpResult) :
    ∀ (ports : List Nat) (p : Nat), find_controller_port check ports = some p →
      p ∈ ports ∧ is_service_running (check p) = true := by
  intro ports
  induction ports with
  | nil => intro p h; exact absurd h (by simp [find_controller_port])
  | cons q rest ih =>
    intro p h
    unfold find_controller_port at h
    by_cases hs : is_service_running (check q) = true
    · rw [if_pos hs] at h
      simp at h
      rw [← h]
      exact ⟨List.mem_cons_self q rest, hs⟩
    · rw [if_neg hs] at h
      obtain ⟨h1, h2⟩ := ih p h
      exact ⟨List.mem_cons_of_mem q h1, h2⟩

theorem find_controller_port_none_of_unhealthy (check : Nat → HttpResult) :
    ∀ (ports : List Nat),
      (∀ p, p ∈ ports → is_service_running (check p) = false) →
      find_controller_port check ports = none := by
  intro ports
  induction ports with
  | nil => intro _; rfl
  | cons q rest ih =>
    intro h
    unfold find_controller_port
    rw [if_neg (by simp [h q (List.mem_cons_self q rest)])]
    exact ih (fun p hp => h p (List.mem_cons_of_mem q hp))

theorem start_controller_ok (probe : Nat → ProbeOutcome)
    (poll : Nat → Nat → HttpResult) (m m' : ServerManager) (p : Nat)
    (h : start_controller probe poll m = (Except.ok p, m')) :
    find_free_port probe base_port_controller 100 = Except.ok p ∧
    m' = ⟨dict_set m.processes "controller", m.running_ports ++ [p]⟩ := by
  unfold start_controller at h
  split at h
  · exact absurd h (by simp)
  · rename_i port heq
    split at h
    · simp at h
      obtain ⟨h1, h2⟩ := h
      subst h1
      exact ⟨heq, h2.symm⟩
    · exact absurd h (by simp)

theorem start_model_worker_ok (probe : Nat → ProbeOutcome)
    (check : Nat → HttpResult) (models_resp : Option (List String))
    (model_name : String) (m m' : ServerManager) (p : Nat) (reg : Bool)
    (h : start_model_worker probe check models_resp model_name m =
      (Except.ok (p, reg), m')) :
    find_free_port probe base_port_model_worker 100 = Except.ok p ∧
    reg = check_worker_registered models_resp model_name ∧
    (∃ cp, find_controller_port check m.running_ports = some cp ∧ cp ≠ 0) ∧
    m' = ⟨dict_set m.processes (next_worker_id m), m.running_ports ++ [p]⟩ := by
  unfold start_model_worker at h
  split at h
  · exact absurd h (by simp)
  · rename_i port heq
    split at h
    · exact absurd h (by simp)
    · rename_i cp hcp
      split at h
      · exact absurd h (by simp)
      · rename_i hz
        simp at h
        obtain ⟨⟨h1, h2⟩, h3⟩ := h
        subst h1
        exact ⟨heq, h2.symm, ⟨cp, hcp, hz⟩, h3.symm⟩

theorem start_openai_api_server_ok (probe : Nat → ProbeOutcome)
    (check : Nat → HttpResult) (poll : Nat → Nat → HttpResult)
    (m m' : ServerManager) (p : Nat)
    (h : start_openai_api_server probe check poll m = (Except.ok p, m')) :
    find_free_port probe base_port_openai_api 100 = Except.ok p ∧
    (∃ cp, find_controller_port check m.running_ports = some cp ∧ cp ≠ 0) ∧
    m' = ⟨dict_set m.processes "openai_api", m.running_ports ++ [p]⟩ := by
  unfold start_openai_api_server at h
  split at h
  · exact absurd h (by simp)
  · rename_i port heq
    split at h
    · exact absurd h (by simp)
    · rename_i cp hcp
      split at h
      · exact absurd h (by simp)
      · rename_i hz
        split at h
        · simp at h
          obtain ⟨h1, h2⟩ := h
          subst h1
          exact ⟨heq, ⟨cp, hcp, hz⟩, h2.symm⟩
        · exact absurd h (by simp)

theorem start_full_stack_ok (env : Env) (model_name : String)
    (m m' : ServerManager) (ports : StackPorts)
    (h : start_full_stack env model_name m = (Except.ok ports, m')) :
    ∃ m1 m2 reg,
      start_controller env.ctrlProbe env.ctrlPoll (cleanup_existing_servers m) =
        (Except.ok ports.controller, m1) ∧
      start_model_worker env.wkrProbe env.wkrCheck env.wkrModels model_name m1 =
        (Except.ok (ports.worker, reg), m2) ∧
      start_openai_api_server env.apiProbe env.apiCheck env.apiPoll m2 =
        (Except.ok ports.api, m') := by
  unfold start_full_stack at h
  simp only [cleanup_existing_servers] at h
  split at h
  · exact absurd h (by simp)
  · rename_i controller_port m1 heq1
    split at h
    · exact absurd h (by simp)
    · rename_i worker_port reg m2 heq2
      split at h
      · exact absurd h (by simp)
      · rename_i api_port m3 heq3
        simp at h
        obtain ⟨hports, hm⟩ := h
        subst hports
        refine ⟨m1, m2, reg, heq1, heq2, ?_⟩
        rw [← hm]
        exact heq3

/-- C2: whenever `start_full_stack` propagates a failure from any step
after conflict cleanup (for example the coordinator health poll timing out
and raising the startup `RuntimeError`), it has called `stop_all_servers`
first, so the state it leaves behind has an empty process table and an
empty port pool. -/
theorem start_full_stack_teardown (env : Env) (model_name : String)
    (m m' : ServerManager) (e : Err)
    (h : start_full_stack env model_name m = (Except.error e, m')) :
    m'.processes = [] ∧ m'.running_ports = [] := by
  unfold start_full_stack at h
  simp only [cleanup_existing_servers] at h
  split at h
  · simp at h
    rw [← h.2]
    exact ⟨rfl, rfl⟩
  · split at h
    · simp at h
      rw [← h.2]
      exact ⟨rfl, rfl⟩
    · split at h
      · simp at h
        rw [← h.2]
        exact ⟨rfl, rfl⟩
      · exact absurd h (by simp)

/-- Witness for C2: a coordinator that never answers its health poll makes
`start_full_stack` fail with the startup error and leave empty tables. -/
theorem start_full_stack_teardown_witness :
    (⟨[], []⟩ : ServerManager).processes = [] ∧
    (⟨[], []⟩ : ServerManager).running_ports = [] :=
  start_full_stack_teardown
    ⟨fun _ => ProbeOutcome.connectResult 111, fun _ _ => HttpResult.exn,
     fun _ => ProbeOutcome.connectResult 111, fun _ => HttpResult.exn, none,
     fun _ => ProbeOutcome.connectResult 111, fun _ => HttpResult.exn,
     fun _ _ => HttpResult.exn, fun _ => StopOutcome.graceful⟩
    "demo-model" ServerManager.init ⟨[], []⟩ Err.controllerFailedToStart
    (by rfl)

/-- C4: dependency invariant.  If no tracked port answers the coordinator
health check (`GET /list_models` with status 200), then (given the port
scan itself succeeds) `start_model_worker` and `start_openai_api_server`
each raise the `RuntimeError("Controller not running")` and leave the
state untouched — no process is spawned; conversely, whenever either
function changes the state at all (i.e. spawns its child process), some
tracked port answered the coordinator health check with status 200. -/
theorem start_requires_healthy_controller (probe : Nat → ProbeOutcome)
    (check : Nat → HttpResult) (models_resp : Option (List String))
    (model_name : String) (poll : Nat → Nat → HttpResult) (m : ServerManager) :
    ((∀ p, p ∈ m.running_ports → is_service_running (check p) = false) →
      (∀ port, find_free_port probe base_port_model_worker 100 = Except.ok port →
        start_model_worker probe check models_resp model_name m =
          (Except.error Err.controllerNotRunning, m)) ∧
      (∀ port, find_free_port probe base_port_openai_api 100 = Except.ok port →
        start_openai_api_server probe check poll m =
          (Except.error Err.controllerNotRunning, m))) ∧
    (∀ r m', start_model_worker probe check models_resp model_name m = (r, m') →
      m' ≠ m → ∃ cp, cp ∈ m.running_ports ∧ is_service_running (check cp) = true) ∧
    (∀ r m', start_openai_api_server probe check poll m = (r, m') →
      m' ≠ m → ∃ cp, cp ∈ m.running_ports ∧ is_service_running (check cp) = true) := by
  refine ⟨?_, ?_, ?_⟩
  · intro hall
    have hnone := find_controller_port_none_of_unhealthy check m.running_ports hall
    constructor
    · intro port hport
      unfold start_model_worker
      rw [hport, hnone]
    · intro port hport
      unfold start_openai_api_server
      rw [hport, hnone]
  · intro r m' h hne
    unfold start_model_worker at h
    split at h
    · simp at h
      exact absurd h.2.symm hne
    · split at h
      · simp at h
        exact absurd h.2.symm hne
      · rename_i cp hcp
        split at h
        · simp at h
          exact absurd h.2.symm hne
        · obtain ⟨hmem, hh⟩ := find_controller_port_some check m.running_ports cp hcp
          exact ⟨cp, hmem, hh⟩
  · intro r m' h hne
    unfold start_openai_api_server at h
    split at h
    · simp at h
      exact absurd h.2.symm hne
    · split at h
      · simp at h
        exact absurd h.2.symm hne
      · rename_i cp hcp
        split at h
        · simp at h
          exact absurd h.2.symm hne
        · obtain ⟨hmem, hh⟩ := find_controller_port_some check m.running_ports cp hcp
          exact ⟨cp, hmem, hh⟩

/-- Witness for C4: with one tracked port whose health check always
raises, both role starters fail with the controller-not-running error and
leave the state unchanged. -/
theorem start_requires_healthy_controller_witness :
    start_model_worker (fun _ => ProbeOutcome.connectResult 111)
        (fun _ => HttpResult.exn) none "demo-model" ⟨["controller"], [21001]⟩ =
      (Except.error Err.controllerNotRunning, ⟨["controller"], [21001]⟩) ∧
    start_openai_api_server (fun _ => ProbeOutcome.connectResult 111)
        (fun _ => HttpResult.exn) (fun _ _ => HttpResult.status 200)
        ⟨["controller"], [21001]⟩ =
      (Except.error Err.controllerNotRunning, ⟨["controller"], [21001]⟩) :=
  ⟨((start_requires_healthy_controller (fun _ => ProbeOutcome.connectResult 111)
      (fun _ => HttpResult.exn) none "demo-model"
      (fun _ _ => HttpResult.status 200) ⟨["controller"], [21001]⟩).1
      (fun _ _ => rfl)).1 21002 (by rfl),
   ((start_requires_healthy_controller (fun _ => ProbeOutcome.connectResult 111)
      (fun _ => HttpResult.exn) none "demo-model"
      (fun _ _ => HttpResult.status 200) ⟨["controller"], [21001]⟩).1
      (fun _ _ => rfl)).2 8000 (by rfl)⟩

/-- C5: worker non-registration is non-fatal.  When the port scan and the
controller lookup succeed but the registration check after the 10-second
grace period fails, `start_model_worker` still returns the allocated
worker port, reporting only the logged warning (registration flag
`false`); and a `start_full_stack` run whose controller and gateway phases
succeed returns successfully even though the worker did not register. -/
theorem worker_nonregistration_nonfatal :
    (∀ (probe : Nat → ProbeOutcome) (check : Nat → HttpResult)
        (models_resp : Option (List String)) (model_name : String)
        (m : ServerManager) (wport cp : Nat),
      find_free_port probe base_port_model_worker 100 = Except.ok wport →
      find_controller_port check m.running_ports = some cp → cp ≠ 0 →
      check_worker_registered models_resp model_name = false →
      start_model_worker probe check models_resp model_name m =
        (Except.ok (wport, false),
          ⟨dict_set m.processes (next_worker_id m), m.running_ports ++ [wport]⟩)) ∧
    (∀ (env : Env) (model_name : String) (m m1 m2 m3 : ServerManager)
        (cp wp ap : Nat),
      start_controller env.ctrlProbe env.ctrlPoll (cleanup_existing_servers m) =
        (Except.ok cp, m1) →
      start_model_worker env.wkrProbe env.wkrCheck env.wkrModels model_name m1 =
        (Except.ok (wp, false), m2) →
      start_openai_api_server env.apiProbe env.apiCheck env.apiPoll m2 =
        (Except.ok ap, m3) →
      start_full_stack env model_name m = (Except.ok ⟨cp, wp, ap⟩, m3)) := by
  constructor
  · intro probe check models_resp model_name m wport cp hport hcp hz hreg
    unfold start_model_worker
    rw [hport, hcp]
    show (if cp = 0 then (Except.error Err.controllerNotRunning, m)
        else (Except.ok (wport, check_worker_registered models_resp model_name),
          (⟨dict_set m.processes (next_worker_id m),
            m.running_ports ++ [wport]⟩ : ServerManager))) =
      (Except.ok (wport, false),
        (⟨dict_set m.processes (next_worker_id m),
          m.running_ports ++ [wport]⟩ : ServerManager))
    rw [if_neg hz, hreg]
  · intro env model_name m m1 m2 m3 cp wp ap h1 h2 h3
    simp only [cleanup_existing_servers] at h1
    simp only [start_full_stack, cleanup_existing_servers, h1, h2, h3]

/-- Witness for C5: a full-stack run in which the worker never appears in
the coordinator model list (empty `models` response, so only the warning
flag is raised) still returns all three ports successfully. -/
theorem worker_nonregistration_nonfatal_witness :
    check_worker_registered (some []) "demo-model" = false ∧
    start_full_stack
      ⟨fun _ => ProbeOutcome.connectResult 111, fun _ _ => HttpResult.status 200,
       fun p => if p = 21001 then ProbeOutcome.connectResult 0
         else ProbeOutcome.connectResult 111,
       fun _ => HttpResult.status 200, some [],
       fun _ => ProbeOutcome.connectResult 111, fun _ => HttpResult.status 200,
       fun _ _ => HttpResult.status 200, fun _ => StopOutcome.graceful⟩
      "demo-model" ServerManager.init =
      (Except.ok ⟨21001, 21002, 8000⟩,
        ⟨["controller", "worker_0", "openai_api"], [21001, 21002, 8000]⟩) :=
  ⟨rfl,
   worker_nonregistration_nonfatal.2
     ⟨fun _ => ProbeOutcome.connectResult 111, fun _ _ => HttpResult.status 200,
      fun p => if p = 21001 then ProbeOutcome.connectResult 0
        else ProbeOutcome.connectResult 111,
      fun _ => HttpResult.status 200, some [],
      fun _ => ProbeOutcome.connectResult 111, fun _ => HttpResult.status 200,
      fun _ _ => HttpResult.status 200, fun _ => StopOutcome.graceful⟩
     "demo-model" ServerManager.init
     ⟨["controller"], [21001]⟩ ⟨["controller", "worker_0"], [21001, 21002]⟩
     ⟨["controller", "worker_0", "openai_api"], [21001, 21002, 8000]⟩
     21001 21002 8000 (by rfl) (by rfl) (by rfl)⟩

/-- C6: the port pool `running_ports` is an ordered sequence recording
allocation order: each successful role launch appends exactly its one
allocated port, `stop_all_servers` clears the pool entirely, and a
successful `start_full_stack` from a fresh orchestrator leaves the pool
holding the controller, worker and API ports in that (allocation) order
with no duplicates.  The no-double-allocation conclusion uses the physical
coherence hypothesis that the confirmed-live controller port probes as
occupied during the worker's scan (a port with a live HTTP listener has
its TCP port bound); worker and API ports are distinct from the others by
their disjoint scan ranges. -/
theorem port_pool_spec :
    (∀ (probe : Nat → ProbeOutcome) (poll : Nat → Nat → HttpResult)
        (m m' : ServerManager) (p : Nat),
      start_controller probe poll m = (Except.ok p, m') →
      m'.running_ports = m.running_ports ++ [p]) ∧
    (∀ (probe : Nat → ProbeOutcome) (check : Nat → HttpResult)
        (models_resp : Option (List String)) (model_name : String)
        (m m' : ServerManager) (p : Nat) (reg : Bool),
      start_model_worker probe check models_resp model_name m =
        (Except.ok (p, reg), m') →
      m'.running_ports = m.running_ports ++ [p]) ∧
    (∀ (probe : Nat → ProbeOutcome) (check : Nat → HttpResult)
        (poll : Nat → Nat → HttpResult) (m m' : ServerManager) (p : Nat),
      start_openai_api_server probe check poll m = (Except.ok p, m') →
      m'.running_ports = m.running_ports ++ [p]) ∧
    (∀ (outcomes : String → StopOutcome) (m : ServerManager),
      (stop_all_servers outcomes m).1.running_ports = []) ∧
    (∀ (env : Env) (model_name : String) (m m' : ServerManager)
        (ports : StackPorts),
      m.running_ports = [] →
      start_full_stack env model_name m = (Except.ok ports, m') →
      is_port_free env.wkrProbe ports.controller = false →
      m'.running_ports = [ports.controller, ports.worker, ports.api] ∧
      List.Nodup m'.running_ports) := by
  refine ⟨?_, ?_, ?_, ?_, ?_⟩
  · intro probe poll m m' p h
    rw [(start_controller_ok probe poll m m' p h).2]
  · intro probe check models_resp model_name m m' p reg h
    rw [(start_model_worker_ok probe check models_resp model_name m m' p reg h).2.2.2]
  · intro probe check poll m m' p h
    rw [(start_openai_api_server_ok probe check poll m m' p h).2.2]
  · intro outcomes m
    rfl
  · intro env model_name m m' ports hpe h hcoh
    obtain ⟨m1, m2, reg, h1, h2, h3⟩ := start_full_stack_ok env model_name m m' ports h
    obtain ⟨hf1, hm1⟩ := start_controller_ok _ _ _ _ _ h1
    obtain ⟨hf2, _, _, hm2⟩ := start_model_worker_ok _ _ _ _ _ _ _ _ h2
    obtain ⟨hf3, _, hm3⟩ := start_openai_api_server_ok _ _ _ _ _ _ h3
    obtain ⟨hb1, hb2, _⟩ :=
      find_free_port_ok_bounds env.ctrlProbe base_port_controller 100
        ports.controller hf1
    obtain ⟨hb3, hb4, hfree2⟩ :=
      find_free_port_ok_bounds env.wkrProbe base_port_model_worker 100
        ports.worker hf2
    obtain ⟨hb5, hb6, _⟩ :=
      find_free_port_ok_bounds env.apiProbe base_port_openai_api 100
        ports.api hf3
    simp only [base_port_controller] at hb1 hb2
    simp only [base_port_model_worker] at hb3 hb4
    simp only [base_port_openai_api] at hb5 hb6
    have hl1 : m1.running_ports = [ports.controller] := by
      rw [hm1]
      simp [cleanup_existing_servers, hpe]
    have hl2 : m2.running_ports = [ports.controller, ports.worker] := by
      rw [hm2]
      simp [hl1]
    have hl3 : m'.running_ports = [ports.controller, ports.worker, ports.api] := by
      rw [hm3]
      simp [hl2]
    have hcw : ports.controller ≠ ports.worker := by
      intro heq
      rw [heq] at hcoh
      rw [hfree2] at hcoh
      simp at hcoh
    have hca : ports.controller ≠ ports.api := by omega
    have hwa : ports.worker ≠ ports.api := by omega
    refine ⟨hl3, ?_⟩
    rw [hl3]
    simp [List.nodup_cons, hcw, hca, hwa]

/-- Witness for C6: the fresh-manager full-stack run of the coherent
sample environment ends with the pool `[21001, 21002, 8000]` in
allocation order and without duplicates. -/
theorem port_pool_spec_witness :
    (⟨["controller", "worker_0", "openai_api"],
      [21001, 21002, 8000]⟩ : ServerManager).running_ports =
      [(⟨21001, 21002, 8000⟩ : StackPorts).controller,
       (⟨21001, 21002, 8000⟩ : StackPorts).worker,
       (⟨21001, 21002, 8000⟩ : StackPorts).api] ∧
    List.Nodup (⟨["controller", "worker_0", "openai_api"],
      [21001, 21002, 8000]⟩ : ServerManager).running_ports :=
  port_pool_spec.2.2.2.2
    ⟨fun _ => ProbeOutcome.connectResult 111, fun _ _ => HttpResult.status 200,
     fun p => if p = 21001 then ProbeOutcome.connectResult 0
       else ProbeOutcome.connectResult 111,
     fun _ => HttpResult.status 200, some [],
     fun _ => ProbeOutcome.connectResult 111, fun _ => HttpResult.status 200,
     fun _ _ => HttpResult.status 200, fun _ => StopOutcome.graceful⟩
    "demo-model" ServerManager.init
    ⟨["controller", "worker_0", "openai_api"], [21001, 21002, 8000]⟩
    ⟨21001, 21002, 8000⟩ rfl (by rfl) (by rfl)
